import Mathlib

/-!
Shallow embedding of the interactive Study Room session controller of the
MurariDB/Major_Project repository, together with the media-path resolver of
the chat API route and the image zoom viewer.

Embedded sources:
* `src/components/study-room.tsx` — the `StudyRoom` component: transcript
  state (`messages`), `inputValue`, `isLoading`, `interactionMode`,
  `enableReadAloud`, the `handleSendMessage` handler and the UI event guards
  (disabled attributes, conditional rendering).
* `src/unnamed/part_002` (tail) — the `VoiceInput` component: `isRecording`,
  `transcript`, the unguarded Send button, recognition result handling.
* `src/unnamed/part_006` — the `/api/chat` route: the image-path rewrite
  `path.match(/([^\/]+)\/page_(\d+)\/([^\/]+)$/)`.
* `src/unnamed/part_003` — `ImageZoomModal.handleZoom`.

Modelling conventions: JavaScript strings are Lean `String`s; the
clock-derived `id` and `timestamp` fields of messages are not modelled (no
claim depends on them); the ambient browser capabilities (speech synthesis
playback, speech recognition engine) are modelled as two booleans
(`speaking`, `recognitionActive`) recording whether the capability is
currently active; each `fetch` to `/api/chat` is recorded by appending its
JSON body's `message` field to `sentBodies`.
-/

namespace StudyRoom

/-- `role` field of a `Message` in `study-room.tsx`: "user" | "assistant". -/
inductive Role where
  | user
  | assistant
deriving DecidableEq

/-- The `Message` interface of `study-room.tsx` (clock-derived `id` and
`timestamp` omitted; `images` is `[]` where the source leaves it undefined). -/
structure Message where
  role : Role
  content : String
  images : List String
deriving DecidableEq

/-- `interactionMode` state: "text" | "voice". -/
inductive Mode where
  | text
  | voice
deriving DecidableEq

/-- The parsed JSON body of a `/api/chat` response as `handleSendMessage`
reads it: `ok`/`status` from the `Response` object, the remaining fields
from `await response.json()`; `none` models an absent field. -/
structure ChatResponse where
  ok : Bool
  status : Nat
  success : Option Bool
  response : Option String
  images : Option (List String)
  error : Option String
deriving DecidableEq

/-- The `StudyRoom` component state plus the `VoiceInput` child state and the
ambient capability state (see module docstring). -/
structure StudyState where
  messages : List Message
  inputValue : String
  isLoading : Bool
  interactionMode : Mode
  enableReadAloud : Bool
  isRecording : Bool
  transcript : String
  speaking : Bool
  recognitionActive : Bool
  sentBodies : List String
deriving DecidableEq

/-- The seeded greeting turn (`useState` initializer in `study-room.tsx`). -/
def greeting : Message :=
  { role := Role.assistant
    content := "Hello! I\x27m your AI tutor. Ask me anything about your uploaded materials or any topic you\x27d like to learn about."
    images := [] }

/-- Initial component state: greeting message, empty input, not loading,
text mode, read-aloud off, no capture or playback active. -/
def initialState : StudyState :=
  { messages := [greeting]
    inputValue := ""
    isLoading := false
    interactionMode := Mode.text
    enableReadAloud := false
    isRecording := false
    transcript := ""
    speaking := false
    recognitionActive := false
    sentBodies := [] }

/-- JavaScript whitespace test used by `String.prototype.trim`, restricted to
the ASCII whitespace characters (space, tab, line feed, carriage return,
form feed, vertical tab). -/
def isSpaceChar (c : Char) : Bool :=
  c = ' ' || c = '\t' || c = '\n' || c = '\r' || c = '\x0c' || c = '\x0b'

/-- JavaScript `inputValue.trim()`: strips leading and trailing whitespace. -/
def jsTrim (s : String) : String :=
  ⟨((s.data.dropWhile isSpaceChar).reverse.dropWhile isSpaceChar).reverse⟩

/-- JavaScript `a || b` for an optional string `a` (absent or empty string is
falsy, so the default is used). -/
def jsOr (o : Option String) (d : String) : String :=
  match o with
  | some s => if s = "" then d else s
  | none => d

/-- JavaScript truthiness of the optional boolean `data.success`
(absent is falsy). -/
def jsBool (o : Option Bool) : Bool := o.getD false

/-- JavaScript truthiness of the optional string `data.response`
(absent or empty is falsy). -/
def jsTruthy (o : Option String) : Bool :=
  match o with
  | some s => s ≠ ""
  | none => false

/-- Fallback assistant content when `data.response` is falsy:
`data.response || "I received your question but couldn't generate a response."` -/
def fallbackContent : String :=
  "I received your question but couldn\x27t generate a response."

/-- The fixed tail of the error message content in the catch block of
`handleSendMessage`. -/
def errorHint : String :=
  "\n\nMake sure the Python backend is running:\n1. Open terminal\n2. Run: python api_server.py\n3. Check http://localhost:8080/health"

/-- The message of the `Error` thrown inside the try block of
`handleSendMessage`: on `!response.ok` it is
`errorData.error || `Server error: ${response.status}``, otherwise (on
`!data.success`) it is `data.error || "Failed to get response from AI"`. -/
def failureMessage (r : ChatResponse) : String :=
  if r.ok then jsOr r.error "Failed to get response from AI"
  else jsOr r.error ("Server error: " ++ toString r.status)

/-- Content of the synthetic assistant message built in the catch block:
`` `❌ Error: ${error.message}\n\nMake sure the Python backend is running:...` ``. -/
def errorContent (r : ChatResponse) : String :=
  "❌ Error: " ++ failureMessage r ++ errorHint

/-- Whether `handleSendMessage` takes its catch path for response `r`:
it throws when `!response.ok` or when `!data.success`. -/
def errorPathTaken (r : ChatResponse) : Bool :=
  !r.ok || !(jsBool r.success)

/-- Synchronous prefix of `handleSendMessage` (study-room.tsx lines 42-68):
the guard `if (!inputValue.trim()) return`, the append of the user message
with `content: inputValue` (not trimmed), `setInputValue("")`,
`setIsLoading(true)`, and the dispatch of `fetch("/api/chat", ...)` whose
body carries `{ message: currentInput }` with `currentInput = inputValue`
(not trimmed). -/
def handleSendMessageSync (s : StudyState) : StudyState :=
  if jsTrim s.inputValue = "" then s
  else
    { s with
      messages := s.messages ++ [{ role := Role.user, content := s.inputValue, images := [] }]
      inputValue := ""
      isLoading := true
      sentBodies := s.sentBodies ++ [s.inputValue] }

/-- Continuation of `handleSendMessage` once the round trip resolves with
`r` (study-room.tsx lines 70-112): on the catch path append the diagnostic
assistant message; on success append the assistant message built from
`data.response`/`data.images` and, when read-aloud is enabled and
`data.response` is truthy, start speech synthesis. The finally block runs
`setIsLoading(false)` on every path. -/
def resolveResponse (s : StudyState) (r : ChatResponse) : StudyState :=
  if errorPathTaken r then
    { s with
      messages := s.messages ++ [{ role := Role.assistant, content := errorContent r, images := [] }]
      isLoading := false }
  else
    { s with
      messages := s.messages ++
        [{ role := Role.assistant
           content := jsOr r.response fallbackContent
           images := r.images.getD [] }]
      isLoading := false
      speaking := s.speaking || (s.enableReadAloud && jsTruthy r.response) }

/-- UI-level events on the rendered `StudyRoom`/`VoiceInput` tree. -/
inductive UIEvent where
  | typedChange (t : String)
  | typedSendClick
  | typedEnter
  | voiceSendClick
  | startRecording
  | stopRecording
  | voiceResult (t : String)
  | switchMode (m : Mode)
  | toggleReadAloud
  | resolve (r : ChatResponse)

/-- One UI event step. Guards come from the JSX: the text input and its Send
button exist only in text mode, the input is `disabled={isLoading}` and its
key handler checks `!isLoading`, the Send button is
`disabled={!inputValue.trim() || isLoading}`; the `VoiceInput` Send button
is rendered whenever `transcript` is nonempty and calls `onSend` with no
`isLoading` check; the mode selector buttons call `setInteractionMode(mode)`
only (switching modes unmounts/remounts `VoiceInput`, resetting its local
state, but stops nothing); the read-aloud button calls
`setEnableReadAloud(!enableReadAloud)` only. `voiceResult` models a final
recognition result: `setTranscript(prev => prev + " " + t)` and
`onInput(t)` → `setInputValue(t)`. `resolve` models the fetch continuation
(meaningful while a request is outstanding). -/
def uiStep (s : StudyState) : UIEvent → StudyState
  | UIEvent.typedChange t =>
      if s.interactionMode = Mode.text ∧ s.isLoading = false then
        { s with inputValue := t }
      else s
  | UIEvent.typedSendClick =>
      if s.interactionMode = Mode.text ∧ ¬jsTrim s.inputValue = "" ∧ s.isLoading = false then
        handleSendMessageSync s
      else s
  | UIEvent.typedEnter =>
      if s.interactionMode = Mode.text ∧ s.isLoading = false then
        handleSendMessageSync s
      else s
  | UIEvent.voiceSendClick =>
      if s.interactionMode = Mode.voice ∧ ¬s.transcript = "" then
        handleSendMessageSync s
      else s
  | UIEvent.startRecording =>
      if s.interactionMode = Mode.voice ∧ s.isRecording = false then
        { s with isRecording := true, recognitionActive := true }
      else s
  | UIEvent.stopRecording =>
      if s.interactionMode = Mode.voice ∧ s.isRecording = true then
        { s with isRecording := false, recognitionActive := false }
      else s
  | UIEvent.voiceResult t =>
      if s.interactionMode = Mode.voice ∧ s.recognitionActive = true then
        { s with transcript := s.transcript ++ " " ++ t, inputValue := t }
      else s
  | UIEvent.switchMode m =>
      if m = s.interactionMode then s
      else
        { s with
          interactionMode := m
          transcript := ""
          isRecording := false }
  | UIEvent.toggleReadAloud =>
      { s with enableReadAloud := !s.enableReadAloud }
  | UIEvent.resolve r =>
      if s.isLoading then resolveResponse s r else s

/-- Submission/resolution events on the session under the spec's
at-most-one-in-flight rule: a submission attempt is a no-op while a request
is outstanding (the rule the claim conditions on), and a resolution is the
continuation of the one outstanding request. `setInput` models typing into
the enabled input field. -/
inductive SEvent where
  | setInput (t : String)
  | submit
  | resolve (r : ChatResponse)

/-- One step of the session under the at-most-one-in-flight rule. -/
def dstep (s : StudyState) : SEvent → StudyState
  | SEvent.setInput t => if s.isLoading then s else { s with inputValue := t }
  | SEvent.submit => if s.isLoading then s else handleSendMessageSync s
  | SEvent.resolve r => if s.isLoading then resolveResponse s r else s

/-- Run a sequence of disciplined events from a state. -/
def runEvents (s : StudyState) (evs : List SEvent) : StudyState :=
  evs.foldl dstep s

/-- Whether a message is a user turn. -/
def isUser (m : Message) : Bool :=
  match m.role with
  | Role.user => true
  | Role.assistant => false

/-- A transcript has no two consecutive user turns. -/
def noConsecUser : List Message → Bool
  | m1 :: m2 :: rest => !(isUser m1 && isUser m2) && noConsecUser (m2 :: rest)
  | _ => true

/-- Whether the last turn of a transcript is a user turn. -/
def lastUser (ms : List Message) : Bool :=
  match ms.getLast? with
  | some m => isUser m
  | none => false

/-- Controller invariant: no two consecutive user turns, and while no
request is outstanding the transcript does not end in a user turn. -/
def SessionInv (s : StudyState) : Prop :=
  noConsecUser s.messages = true ∧ (s.isLoading = false → lastUser s.messages = false)

/-- Concrete failing submission for the C4 witness. -/
def c4s : StudyState := { initialState with inputValue := "What is entropy?" }

/-- Concrete HTTP 500 response (no JSON error body fields) for the C4
witness. -/
def c4r : ChatResponse :=
  { ok := false, status := 500, success := none, response := none, images := none, error := none }

/-- Concrete whitespace-only input for the C5 witness. -/
def c5s : StudyState := { initialState with inputValue := "   " }

/-- Event trace reaching a state with a request in flight, an active voice
capture, a nonempty accumulated transcript and a nonempty `inputValue`
(a later finalized utterance arrived while the first request was pending). -/
def c1Trace : List UIEvent :=
  [UIEvent.switchMode Mode.voice, UIEvent.startRecording,
   UIEvent.voiceResult "What is entropy", UIEvent.voiceSendClick,
   UIEvent.voiceResult "and what is enthalpy"]

/-- The state reached by `c1Trace` from the initial state. -/
def c1Before : StudyState := c1Trace.foldl uiStep initialState

/-- Concrete in-flight voice-mode state for the C1 witness. -/
def c1w : StudyState :=
  { initialState with
    isLoading := true
    interactionMode := Mode.voice
    transcript := " hi there"
    inputValue := "hi there" }

/-- Concrete untrimmed input for the C6 counterexample and witness. -/
def c6s : StudyState := { initialState with inputValue := " hi " }

/-- Concrete state with narration enabled and a playback in progress, for
the C7 counterexample. -/
def c7s : StudyState := { initialState with enableReadAloud := true, speaking := true }

/-- Concrete voice-mode state with an active capture, an accumulated
transcript in `transcript` and finalized text in `inputValue`, for the C8
counterexample. -/
def c8s : StudyState :=
  { initialState with
    interactionMode := Mode.voice
    isRecording := true
    recognitionActive := true
    transcript := " solve for x"
    inputValue := "solve for x" }

/-- Concrete response with `success: true` but no `response` field, for the
C9 counterexample and witness. -/
def c9r : ChatResponse :=
  { ok := true
    status := 200
    success := some true
    response := none
    images := some []
    error := none }

end StudyRoom

namespace ChatRoute

/-- Split a character list at every `'/'` (components of a path; a leading,
trailing or doubled slash yields an empty component, as in the usual
split-on-separator semantics the regex quantifiers observe). -/
def splitSlash : List Char → List (List Char)
  | [] => [[]]
  | c :: cs =>
    if c = '/' then [] :: splitSlash cs
    else
      match splitSlash cs with
      | [] => [[c]]
      | h :: t => (c :: h) :: t

/-- The match test of `path.match(/([^\/]+)\/page_(\d+)\/([^\/]+)$/)` in the
`/api/chat` route (`src/unnamed/part_006`). Because the regex is anchored at
the end of the string and its three groups are slash-free, it matches
exactly when the last three slash-separated components of `path` are a
nonempty document component, a component that is literally `page_` followed
by one or more digits, and a nonempty filename component. -/
def imageShapeMatch (path : String) : Bool :=
  match (splitSlash path.data).reverse with
  | file :: ('p' :: 'a' :: 'g' :: 'e' :: '_' :: ds) :: doc :: _ =>
    !file.isEmpty && !doc.isEmpty && !ds.isEmpty && ds.all Char.isDigit
  | _ => false

/-- The image-path rewrite of the `/api/chat` route (`src/unnamed/part_006`):
when the regex matches, return
`` `${backendUrl}/api/images/${pdfName}/page_${pageNum}/${filename}` ``
built from the three captured components; otherwise return `path`
unchanged. The captured `pdfName`, `pageNum` and `filename` are the last
three components identified by `imageShapeMatch`. -/
def resolveImagePath (backendUrl : String) (path : String) : String :=
  if imageShapeMatch path then
    match (splitSlash path.data).reverse with
    | file :: mid :: doc :: _ =>
      backendUrl ++ "/api/images/" ++ ⟨doc⟩ ++ "/" ++ ⟨mid⟩ ++ "/" ++ ⟨file⟩
    | _ => path
  else path

/-- A character list containing no `'/'` (the shape of a regex `[^/]+` or
`\d+` capture). -/
def noSlash (l : List Char) : Bool := l.all (fun c => c ≠ '/')

end ChatRoute

namespace ImageZoom

/-- `handleZoom` of `ImageZoomModal` (`src/unnamed/part_003`):
`const newZoom = direction === "in" ? prev + 0.2 : prev - 0.2;
return Math.max(0.5, Math.min(3, newZoom))`. The numeric literals are
modelled as rationals; the clamp makes the claimed interval bound
insensitive to floating-point rounding of the step. `zoomIn = true` models
`direction === "in"`. -/
def handleZoom (zoomIn : Bool) (prev : ℚ) : ℚ :=
  let newZoom := if zoomIn then prev + 2/10 else prev - 2/10
  max (1/2) (min 3 newZoom)

/-- Zoom factor after a sequence of zoom operations starting from the
initial `useState(1)`. -/
def zoomAfter (ops : List Bool) : ℚ :=
  ops.foldl (fun z d => handleZoom d z) 1

end ImageZoom

namespace StudyRoom

theorem lastUser_concat (ms : List Message) (m : Message) :
    lastUser (ms ++ [m]) = isUser m := by
  simp [lastUser, List.getLast?_concat]

theorem noConsecUser_snoc (ms : List Message) (m : Message)
    (h1 : noConsecUser ms = true)
    (h2 : isUser m = true → lastUser ms = false) :
    noConsecUser (ms ++ [m]) = true := by
  induction ms with
  | nil => rfl
  | cons a tail ih =>
    cases tail with
    | nil =>
      by_cases hm : isUser m = true
      · have hl := h2 hm
        simp only [lastUser, List.getLast?_singleton] at hl
        simp [noConsecUser, hl, hm]
      · simp only [Bool.not_eq_true] at hm
        simp [noConsecUser, hm]
    | cons b rest =>
      have h1x : noConsecUser (b :: rest) = true := by
        simp only [noConsecUser, Bool.and_eq_true] at h1
        exact h1.2
      have h2x : isUser m = true → lastUser (b :: rest) = false := by
        intro hm
        simpa [lastUser] using h2 hm
      have hx := ih h1x h2x
      simp only [noConsecUser, Bool.and_eq_true] at h1
      simp only [List.cons_append, noConsecUser, Bool.and_eq_true]
      exact ⟨h1.1, by simpa using hx⟩

theorem dstep_inv (s : StudyState) (e : SEvent) (h : SessionInv s) :
    SessionInv (dstep s e) := by
  obtain ⟨h1, h2⟩ := h
  cases e with
  | setInput t =>
    simp only [dstep]
    split
    · exact ⟨h1, h2⟩
    · exact ⟨h1, h2⟩
  | submit =>
    simp only [dstep]
    split
    · exact ⟨h1, h2⟩
    · rename_i hl
      unfold handleSendMessageSync
      split
      · exact ⟨h1, h2⟩
      · constructor
        · apply noConsecUser_snoc _ _ h1
          intro _
          exact h2 (by simpa using hl)
        · intro hfalse
          simp at hfalse
  | resolve r =>
    simp only [dstep]
    split
    · unfold resolveResponse
      split
      · refine ⟨noConsecUser_snoc _ _ h1 ?_, ?_⟩
        · intro hm
          simp [isUser] at hm
        · intro _
          rw [lastUser_concat]
          simp [isUser]
      · refine ⟨noConsecUser_snoc _ _ h1 ?_, ?_⟩
        · intro hm
          simp [isUser] at hm
        · intro _
          rw [lastUser_concat]
          simp [isUser]
    · exact ⟨h1, h2⟩

theorem runEvents_inv (evs : List SEvent) (s : StudyState) (h : SessionInv s) :
    SessionInv (runEvents s evs) := by
  induction evs generalizing s with
  | nil => exact h
  | cons e evs ih => exact ih (dstep s e) (dstep_inv s e h)

theorem initialState_inv : SessionInv initialState := by
  constructor
  · rfl
  · intro _
    rfl

/-- C2: For every sequence of submissions under the at-most-one-in-flight
rule, the Transcript Store never contains two consecutive user Turns
without an intervening assistant (or failure) Turn: every transcript
reachable from the initial state by disciplined submission/resolution
events satisfies `noConsecUser`. -/
theorem c2_no_consecutive_user_turns (evs : List SEvent) :
    noConsecUser (runEvents initialState evs).messages = true :=
  (runEvents_inv evs initialState initialState_inv).1

/-- C4: For every non-empty submission whose backend round trip fails
(non-success HTTP status or `success: false`, i.e. `errorPathTaken`), the
Transcript Store gains exactly two Turns — the user Turn followed by an
assistant Turn whose content embeds the failure reason — and `isLoading`
becomes true at dispatch and false after resolution for every outcome. -/
theorem c4_failed_round_trip (s : StudyState) (r : ChatResponse)
    (hne : ¬jsTrim s.inputValue = "") (hfail : errorPathTaken r = true) :
    (handleSendMessageSync s).isLoading = true ∧
    (resolveResponse (handleSendMessageSync s) r).messages
      = s.messages ++
          [{ role := Role.user, content := s.inputValue, images := [] },
           { role := Role.assistant, content := errorContent r, images := [] }] ∧
    (resolveResponse (handleSendMessageSync s) r).messages.length
      = s.messages.length + 2 ∧
    (∃ pre post, errorContent r = pre ++ failureMessage r ++ post) ∧
    (∀ r2 : ChatResponse, (resolveResponse (handleSendMessageSync s) r2).isLoading = false) := by
  have hsync : handleSendMessageSync s
      = { s with
          messages := s.messages ++ [{ role := Role.user, content := s.inputValue, images := [] }]
          inputValue := ""
          isLoading := true
          sentBodies := s.sentBodies ++ [s.inputValue] } := by
    simp [handleSendMessageSync, hne]
  refine ⟨by rw [hsync], ?_, ?_, ?_, ?_⟩
  · rw [hsync]
    simp [resolveResponse, hfail]
  · rw [hsync]
    simp [resolveResponse, hfail]
  · exact ⟨"❌ Error: ", errorHint, by simp [errorContent, String.append_assoc]⟩
  · intro r2
    unfold resolveResponse
    split
    · rfl
    · rfl

theorem c4_failed_round_trip_witness :
    (handleSendMessageSync c4s).isLoading = true ∧
    (resolveResponse (handleSendMessageSync c4s) c4r).messages
      = c4s.messages ++
          [{ role := Role.user, content := c4s.inputValue, images := [] },
           { role := Role.assistant, content := errorContent c4r, images := [] }] ∧
    (resolveResponse (handleSendMessageSync c4s) c4r).messages.length
      = c4s.messages.length + 2 ∧
    (∃ pre post, errorContent c4r = pre ++ failureMessage c4r ++ post) ∧
    (∀ r2 : ChatResponse, (resolveResponse (handleSendMessageSync c4s) r2).isLoading = false) :=
  c4_failed_round_trip c4s c4r (by decide) (by decide)

/-- C5: An input that is empty or whitespace-only after trimming is
rejected locally: the handler and every submission-producing UI event leave
the state (hence the Transcript Store and the dispatched-request log)
unchanged. -/
theorem c5_whitespace_noop (s : StudyState) (h : jsTrim s.inputValue = "") :
    handleSendMessageSync s = s ∧
    uiStep s UIEvent.typedSendClick = s ∧
    uiStep s UIEvent.typedEnter = s ∧
    uiStep s UIEvent.voiceSendClick = s ∧
    (handleSendMessageSync s).messages.length = s.messages.length ∧
    (handleSendMessageSync s).sentBodies = s.sentBodies := by
  have hs : handleSendMessageSync s = s := by simp [handleSendMessageSync, h]
  refine ⟨hs, ?_, ?_, ?_, by rw [hs], by rw [hs]⟩
  · simp only [uiStep]
    split
    · exact hs
    · rfl
  · simp only [uiStep]
    split
    · exact hs
    · rfl
  · simp only [uiStep]
    split
    · exact hs
    · rfl

theorem c5_whitespace_noop_witness :
    handleSendMessageSync c5s = c5s ∧
    uiStep c5s UIEvent.typedSendClick = c5s ∧
    uiStep c5s UIEvent.typedEnter = c5s ∧
    uiStep c5s UIEvent.voiceSendClick = c5s ∧
    (handleSendMessageSync c5s).messages.length = c5s.messages.length ∧
    (handleSendMessageSync c5s).sentBodies = c5s.sentBodies :=
  c5_whitespace_noop c5s (by decide)

/-- C1 counterexample: in the reachable state `c1Before`, `isLoading` is
true, yet clicking the VoiceInput Send button appends a user Turn and
dispatches a second backend request — the claimed no-op rejection fails for
submissions forwarded from voice input. -/
theorem c1_counterexample :
    c1Before.isLoading = true ∧
    (uiStep c1Before UIEvent.voiceSendClick).messages.length
      = c1Before.messages.length + 1 ∧
    (uiStep c1Before UIEvent.voiceSendClick).sentBodies.length
      = c1Before.sentBodies.length + 1 := by
  decide

/-- C1 amended: while `isLoading` is true, typed submission attempts (Send
button click, Enter keypress) are rejected as no-ops; but a submission
forwarded from voice input is not guarded: with a nonempty transcript and a
nonempty (after trimming) `inputValue` it appends a user Turn and
dispatches a second request. -/
theorem c1_inflight_guard_amended (s : StudyState) (h : s.isLoading = true) :
    uiStep s UIEvent.typedSendClick = s ∧
    uiStep s UIEvent.typedEnter = s ∧
    (s.interactionMode = Mode.voice → ¬s.transcript = "" → ¬jsTrim s.inputValue = "" →
      (uiStep s UIEvent.voiceSendClick).messages.length = s.messages.length + 1 ∧
      (uiStep s UIEvent.voiceSendClick).sentBodies = s.sentBodies ++ [s.inputValue]) := by
  refine ⟨?_, ?_, ?_⟩
  · simp [uiStep, h]
  · simp [uiStep, h]
  · intro hv ht hne
    simp [uiStep, hv, ht, handleSendMessageSync, hne]

theorem c1_inflight_guard_amended_witness :
    uiStep c1w UIEvent.typedSendClick = c1w ∧
    uiStep c1w UIEvent.typedEnter = c1w ∧
    (uiStep c1w UIEvent.voiceSendClick).messages.length = c1w.messages.length + 1 ∧
    (uiStep c1w UIEvent.voiceSendClick).sentBodies = c1w.sentBodies ++ [c1w.inputValue] := by
  have h := c1_inflight_guard_amended c1w (by decide)
  exact ⟨h.1, h.2.1, (h.2.2 (by decide) (by decide) (by decide)).1,
    (h.2.2 (by decide) (by decide) (by decide)).2⟩

/-- C6 counterexample: submitting `" hi "` dispatches a request whose body
carries the untrimmed `" hi "`, not the trimmed `"hi"` the claim requires. -/
theorem c6_counterexample :
    jsTrim " hi " = "hi" ∧
    (handleSendMessageSync c6s).sentBodies = [" hi "] ∧
    " hi " ≠ "hi" := by
  decide

/-- C6 amended: for every accepted submission the request body carries the
input text exactly as entered (untrimmed); trimming is applied only in the
emptiness guard. The appended user Turn likewise stores the untrimmed
text. -/
theorem c6_untrimmed_request_amended (s : StudyState) (h : ¬jsTrim s.inputValue = "") :
    (handleSendMessageSync s).sentBodies = s.sentBodies ++ [s.inputValue] ∧
    (handleSendMessageSync s).messages
      = s.messages ++ [{ role := Role.user, content := s.inputValue, images := [] }] := by
  simp [handleSendMessageSync, h]

theorem c6_untrimmed_request_amended_witness :
    (handleSendMessageSync c6s).sentBodies = c6s.sentBodies ++ [c6s.inputValue] ∧
    (handleSendMessageSync c6s).messages
      = c6s.messages ++ [{ role := Role.user, content := c6s.inputValue, images := [] }] :=
  c6_untrimmed_request_amended c6s (by decide)

/-- C7 counterexample: toggling narration off while a playback is in
progress leaves the playback running — the toggle handler only flips the
flag and never invokes a cancellation, so no `ended` signal can fire. -/
theorem c7_counterexample :
    c7s.speaking = true ∧
    (uiStep c7s UIEvent.toggleReadAloud).enableReadAloud = false ∧
    (uiStep c7s UIEvent.toggleReadAloud).speaking = true := by
  decide

/-- C7 amended: the narration toggle only flips `enableReadAloud`; an
in-progress speech playback is left untouched (no cancellation, no
immediate `ended`). -/
theorem c7_toggle_narration_amended (s : StudyState) :
    uiStep s UIEvent.toggleReadAloud = { s with enableReadAloud := !s.enableReadAloud } :=
  rfl

/-- C8 counterexample: switching from voice to text while capture is active
leaves the speech-recognition engine running (no `stop()` is invoked on the
mode switch), though `inputValue` is preserved. -/
theorem c8_counterexample :
    c8s.recognitionActive = true ∧
    (uiStep c8s (UIEvent.switchMode Mode.text)).recognitionActive = true ∧
    (uiStep c8s (UIEvent.switchMode Mode.text)).inputValue = "solve for x" ∧
    (uiStep c8s (UIEvent.switchMode Mode.text)).interactionMode = Mode.text := by
  decide

/-- C8 amended: a mode switch preserves the transcript, `inputValue` and
the underlying recognition-engine state (active capture is not stopped);
only the mode and the voice panel's local display state change. -/
theorem c8_mode_switch_amended (s : StudyState) (m : Mode) :
    (uiStep s (UIEvent.switchMode m)).recognitionActive = s.recognitionActive ∧
    (uiStep s (UIEvent.switchMode m)).inputValue = s.inputValue ∧
    (uiStep s (UIEvent.switchMode m)).messages = s.messages ∧
    (uiStep s (UIEvent.switchMode m)).interactionMode = m := by
  simp only [uiStep]
  split
  · rename_i hm
    exact ⟨rfl, rfl, rfl, hm.symm⟩
  · exact ⟨rfl, rfl, rfl, rfl⟩

/-- C9 counterexample: a response missing the `response` text (with
`success: true`) is not treated as a transport failure — the catch path is
not taken and the appended assistant Turn carries the placeholder content
with no failure marker. -/
theorem c9_counterexample :
    errorPathTaken c9r = false ∧
    (resolveResponse initialState c9r).messages
      = initialState.messages
          ++ [{ role := Role.assistant, content := fallbackContent, images := [] }] ∧
    ¬ List.IsInfix "❌".data fallbackContent.data := by
  refine ⟨rfl, by decide, by decide⟩

/-- C9 amended: every resolution appends exactly one assistant Turn and
clears `isLoading` (no unhandled fault); a response missing the `success`
indicator takes the failure path and renders the diagnostic content, while
a response with `success: true` but missing `response` text is rendered as
a normal assistant Turn with the generic placeholder content. -/
theorem c9_resolve_total_amended (s : StudyState) (r : ChatResponse) :
    ∃ m : Message,
      (resolveResponse s r).messages = s.messages ++ [m] ∧
      m.role = Role.assistant ∧
      (resolveResponse s r).isLoading = false ∧
      (r.success = none → errorPathTaken r = true ∧ m.content = errorContent r) ∧
      (r.ok = true → r.success = some true → r.response = none →
        errorPathTaken r = false ∧ m.content = fallbackContent) := by
  by_cases h : errorPathTaken r = true
  · refine ⟨{ role := Role.assistant, content := errorContent r, images := [] },
      ?_, rfl, ?_, ?_, ?_⟩
    · simp [resolveResponse, h]
    · simp [resolveResponse, h]
    · exact fun _ => ⟨h, rfl⟩
    · intro hok hsucc _
      exfalso
      simp [errorPathTaken, jsBool, hok, hsucc] at h
  · have hf : errorPathTaken r = false := by simpa using h
    refine ⟨{ role := Role.assistant, content := jsOr r.response fallbackContent, images := r.images.getD [] }, ?_, rfl, ?_, ?_, ?_⟩
    · simp [resolveResponse, hf]
    · simp [resolveResponse, hf]
    · intro hnone
      exfalso
      simp [errorPathTaken, jsBool, hnone] at hf
    · intro _ _ hresp
      exact ⟨hf, by simp [jsOr, hresp]⟩

theorem c9_resolve_total_amended_witness :
    ∃ m : Message,
      (resolveResponse initialState c9r).messages = initialState.messages ++ [m] ∧
      m.role = Role.assistant ∧
      (resolveResponse initialState c9r).isLoading = false ∧
      (c9r.success = none → errorPathTaken c9r = true ∧ m.content = errorContent c9r) ∧
      (c9r.ok = true → c9r.success = some true → c9r.response = none →
        errorPathTaken c9r = false ∧ m.content = fallbackContent) :=
  c9_resolve_total_amended initialState c9r

end StudyRoom

namespace ChatRoute

theorem splitSlash_noSlash (l : List Char) (h : noSlash l = true) :
    splitSlash l = [l] := by
  induction l with
  | nil => rfl
  | cons c cs ih =>
    simp only [noSlash, List.all_cons, Bool.and_eq_true, decide_eq_true_eq] at h
    simp only [splitSlash, if_neg h.1, ih (by simpa [noSlash] using h.2)]

theorem splitSlash_append (a b : List Char) (hd : List Char) (tl : List (List Char))
    (ha : noSlash a = true) (hb : splitSlash b = hd :: tl) :
    splitSlash (a ++ b) = (a ++ hd) :: tl := by
  induction a with
  | nil => simpa using hb
  | cons c cs ih =>
    simp only [noSlash, List.all_cons, Bool.and_eq_true, decide_eq_true_eq] at ha
    have ih2 := ih (by simpa [noSlash] using ha.2)
    simp only [List.cons_append, splitSlash, if_neg ha.1, List.append_eq, ih2]

theorem splitSlash_slash_cons (xs : List Char) :
    splitSlash ('/' :: xs) = [] :: splitSlash xs := by
  simp [splitSlash]

/-- Component decomposition of a path of the exact `<doc>/page_<n>/<file>`
shape with slash-free components. -/
theorem splitSlash_shape (doc n file : String)
    (hdoc : noSlash doc.data = true) (hn : noSlash n.data = true)
    (hfile : noSlash file.data = true) :
    splitSlash (doc ++ "/page_" ++ n ++ "/" ++ file).data
      = [doc.data, ['p', 'a', 'g', 'e', '_'] ++ n.data, file.data] := by
  have hmid : noSlash (['p', 'a', 'g', 'e', '_'] ++ n.data) = true := by
    simp only [noSlash, List.all_append, Bool.and_eq_true]
    exact ⟨by decide, hn⟩
  have s1 : splitSlash file.data = [file.data] := splitSlash_noSlash _ hfile
  have s2 : splitSlash ('/' :: file.data) = [] :: [file.data] := by
    rw [splitSlash_slash_cons, s1]
  have s3 := splitSlash_append (['p', 'a', 'g', 'e', '_'] ++ n.data) ('/' :: file.data) _ _ hmid s2
  have s4 : splitSlash ('/' :: ((['p', 'a', 'g', 'e', '_'] ++ n.data) ++ '/' :: file.data))
      = [] :: ((['p', 'a', 'g', 'e', '_'] ++ n.data) ++ []) :: [file.data] := by
    rw [splitSlash_slash_cons, s3]
  have s5 := splitSlash_append doc.data
    ('/' :: ((['p', 'a', 'g', 'e', '_'] ++ n.data) ++ '/' :: file.data)) _ _ hdoc s4
  have hF : (doc ++ "/page_" ++ n ++ "/" ++ file).data
      = doc.data ++ '/' :: ((['p', 'a', 'g', 'e', '_'] ++ n.data) ++ '/' :: file.data) := by
    simp [String.data_append]
  rw [hF, s5]
  simp

/-- A path of the exact shape is matched by the route's regex. -/
theorem imageShapeMatch_shape (doc n file : String)
    (hdoc : noSlash doc.data = true) (hdocne : doc.data ≠ [])
    (hn : noSlash n.data = true) (hnne : n.data ≠ [])
    (hdig : n.data.all Char.isDigit = true)
    (hfile : noSlash file.data = true) (hfilene : file.data ≠ []) :
    imageShapeMatch (doc ++ "/page_" ++ n ++ "/" ++ file) = true := by
  unfold imageShapeMatch
  rw [splitSlash_shape doc n file hdoc hn hfile]
  simp [List.isEmpty_iff, hdocne, hnne, hfilene, hdig]

/-- The route rewrites a path of the exact shape to the backend image URL,
with the three captured components preserved verbatim. -/
theorem resolveImagePath_shape (base doc n file : String)
    (hdoc : noSlash doc.data = true) (hdocne : doc.data ≠ [])
    (hn : noSlash n.data = true) (hnne : n.data ≠ [])
    (hdig : n.data.all Char.isDigit = true)
    (hfile : noSlash file.data = true) (hfilene : file.data ≠ []) :
    resolveImagePath base (doc ++ "/page_" ++ n ++ "/" ++ file)
      = base ++ "/api/images/" ++ doc ++ "/page_" ++ n ++ "/" ++ file := by
  unfold resolveImagePath
  rw [imageShapeMatch_shape doc n file hdoc hdocne hn hnne hdig hfile hfilene,
    splitSlash_shape doc n file hdoc hn hfile]
  simp only [List.reverse_cons, List.reverse_nil, List.nil_append, List.cons_append,
    if_true]
  apply String.ext
  simp [String.data_append]

/-- A path the regex does not match is returned unchanged. -/
theorem resolveImagePath_no_match (base p : String)
    (h : imageShapeMatch p = false) : resolveImagePath base p = p := by
  simp [resolveImagePath, h]

/-- C3: the Media Reference Resolver rewrites a path of the shape
`<doc>/page_<n>/<file>` (slash-free nonempty components, `n` all digits)
to `<base>/api/images/<doc>/page_<n>/<file>`, preserving the three captured
components verbatim, and returns any path the regex does not match
unchanged. -/
theorem c3_media_resolver (base doc n file q : String)
    (hdoc : noSlash doc.data = true) (hdocne : doc.data ≠ [])
    (hn : noSlash n.data = true) (hnne : n.data ≠ [])
    (hdig : n.data.all Char.isDigit = true)
    (hfile : noSlash file.data = true) (hfilene : file.data ≠ [])
    (hq : imageShapeMatch q = false) :
    resolveImagePath base (doc ++ "/page_" ++ n ++ "/" ++ file)
      = base ++ "/api/images/" ++ doc ++ "/page_" ++ n ++ "/" ++ file ∧
    resolveImagePath base q = q :=
  ⟨resolveImagePath_shape base doc n file hdoc hdocne hn hnne hdig hfile hfilene,
   resolveImagePath_no_match base q hq⟩

theorem c3_media_resolver_witness :
    resolveImagePath "http://localhost:8080" ("algebra101" ++ "/page_" ++ "4" ++ "/" ++ "diagram.png")
      = "http://localhost:8080" ++ "/api/images/" ++ "algebra101" ++ "/page_" ++ "4" ++ "/" ++ "diagram.png" ∧
    resolveImagePath "http://localhost:8080" "notes.png" = "notes.png" :=
  c3_media_resolver "http://localhost:8080" "algebra101" "4" "diagram.png" "notes.png"
    (by decide) (by decide) (by decide) (by decide) (by decide) (by decide)
    (by decide) (by decide)

end ChatRoute

namespace ImageZoom

theorem handleZoom_bounds (d : Bool) (z : ℚ) :
    1/2 ≤ handleZoom d z ∧ handleZoom d z ≤ 3 := by
  unfold handleZoom
  constructor
  · exact le_max_left _ _
  · apply max_le
    · norm_num
    · exact min_le_left _ _

theorem zoom_foldl_bounds (ops : List Bool) (z : ℚ) (h1 : 1/2 ≤ z) (h2 : z ≤ 3) :
    1/2 ≤ ops.foldl (fun z d => handleZoom d z) z ∧
    ops.foldl (fun z d => handleZoom d z) z ≤ 3 := by
  induction ops generalizing z with
  | nil => exact ⟨h1, h2⟩
  | cons d ops ih =>
    simp only [List.foldl_cons]
    exact ih _ (handleZoom_bounds d z).1 (handleZoom_bounds d z).2

/-- C10: starting from zoom factor 1, after every sequence of zoom-in and
zoom-out operations the zoom factor remains within the closed interval
[0.5, 3]. -/
theorem c10_zoom_bounds (ops : List Bool) :
    1/2 ≤ zoomAfter ops ∧ zoomAfter ops ≤ 3 :=
  zoom_foldl_bounds ops 1 (by norm_num) (by norm_num)

end ImageZoom
